import Mathlib

/-!
Verification development for the Stagehand instruction-to-action resolution
and caching engine (`src/lib/index.ts`).

The engine is shallowly embedded: the `Stagehand` class becomes a state
record, the external collaborators (live page, DOM snapshot provider,
reasoning oracle) become an explicit per-call environment, and the `observe`
and `act` methods become pure functions from environment and state to a
result record that carries the returned value (or raised error), the updated
state, whether the oracle was invoked, the interactions performed against
the live document, and the ordered event trace of the call.

`getKey` in the source is `crypto.createHash('sha256').update(op).digest('hex')`;
SHA-256 over the UTF-8 bytes of the instruction text is embedded below in
full, with 32-bit words carried as `Nat` reduced modulo `2 ^ 32`.
-/

/-! ## SHA-256 (the key deriver used by `Stagehand.getKey`) -/

def M32 : Nat := 4294967296

def add32 (a b : Nat) : Nat := (a + b) % M32

def rotr32 (n x : Nat) : Nat := ((x >>> n) ||| (x <<< (32 - n))) % M32

def not32 (x : Nat) : Nat := (x % M32) ^^^ (M32 - 1)

def bsig0 (x : Nat) : Nat := rotr32 2 x ^^^ rotr32 13 x ^^^ rotr32 22 x

def bsig1 (x : Nat) : Nat := rotr32 6 x ^^^ rotr32 11 x ^^^ rotr32 25 x

def ssig0 (x : Nat) : Nat := rotr32 7 x ^^^ rotr32 18 x ^^^ (x >>> 3)

def ssig1 (x : Nat) : Nat := rotr32 17 x ^^^ rotr32 19 x ^^^ (x >>> 10)

def chf (x y z : Nat) : Nat := (x &&& y) ^^^ (not32 x &&& z)

def majf (x y z : Nat) : Nat := (x &&& y) ^^^ (x &&& z) ^^^ (y &&& z)

def sha256K : List Nat :=
  [1116352408, 1899447441, 3049323471, 3921009573,
   961987163, 1508970993, 2453635748, 2870763221,
   3624381080, 310598401, 607225278, 1426881987,
   1925078388, 2162078206, 2614888103, 3248222580,
   3835390401, 4022224774, 264347078, 604807628,
   770255983, 1249150122, 1555081692, 1996064986,
   2554220882, 2821834349, 2952996808, 3210313671,
   3336571891, 3584528711, 113926993, 338241895,
   666307205, 773529912, 1294757372, 1396182291,
   1695183700, 1986661051, 2177026350, 2456956037,
   2730485921, 2820302411, 3259730800, 3345764771,
   3516065817, 3600352804, 4094571909, 275423344,
   430227734, 506948616, 659060556, 883997877,
   958139571, 1322822218, 1537002063, 1747873779,
   1955562222, 2024104815, 2227730452, 2361852424,
   2428436474, 2756734187, 3204031479, 3329325298]

structure Hash8 where
  w0 : Nat
  w1 : Nat
  w2 : Nat
  w3 : Nat
  w4 : Nat
  w5 : Nat
  w6 : Nat
  w7 : Nat
deriving Repr, DecidableEq

def sha256Init : Hash8 :=
  ⟨1779033703, 3144134277, 1013904242, 2773480762,
   1359893119, 2600822924, 528734635, 1541459225⟩

/-- Big-endian 32-bit word at word index `i` of a 64-byte block. -/
def wordAt (block : List Nat) (i : Nat) : Nat :=
  block.getD (4 * i) 0 * 16777216 + block.getD (4 * i + 1) 0 * 65536 +
    block.getD (4 * i + 2) 0 * 256 + block.getD (4 * i + 3) 0

/-- Message schedule: 16 big-endian words of the block, extended to 64. -/
def schedule (block : List Nat) : Array Nat :=
  (List.range 48).foldl
    (fun w t =>
      let i := t + 16
      w.push (add32 (add32 (ssig1 (w.getD (i - 2) 0)) (w.getD (i - 7) 0))
        (add32 (ssig0 (w.getD (i - 15) 0)) (w.getD (i - 16) 0))))
    (Array.ofFn (fun i : Fin 16 => wordAt block i))

def compressBlock (st : Hash8) (block : List Nat) : Hash8 :=
  let w := schedule block
  let f := (List.range 64).foldl
    (fun (s : Nat × Nat × Nat × Nat × Nat × Nat × Nat × Nat) t =>
      let (a, b, c, d, e, f, g, h) := s
      let t1 := add32 h (add32 (bsig1 e)
        (add32 (chf e f g) (add32 (sha256K.getD t 0) (w.getD t 0))))
      let t2 := add32 (bsig0 a) (majf a b c)
      (add32 t1 t2, a, b, c, add32 d t1, e, f, g))
    (st.w0, st.w1, st.w2, st.w3, st.w4, st.w5, st.w6, st.w7)
  ⟨add32 st.w0 f.1, add32 st.w1 f.2.1, add32 st.w2 f.2.2.1,
   add32 st.w3 f.2.2.2.1, add32 st.w4 f.2.2.2.2.1, add32 st.w5 f.2.2.2.2.2.1,
   add32 st.w6 f.2.2.2.2.2.2.1, add32 st.w7 f.2.2.2.2.2.2.2⟩

/-- SHA-256 padding: append `0x80`, zero bytes to 56 mod 64, then the
64-bit big-endian bit length. -/
def padMessage (msg : List Nat) : List Nat :=
  let bitLen := msg.length * 8
  let z := (119 - msg.length % 64) % 64
  msg ++ [0x80] ++ List.replicate z 0 ++
    [bitLen >>> 56 % 256, bitLen >>> 48 % 256, bitLen >>> 40 % 256,
     bitLen >>> 32 % 256, bitLen >>> 24 % 256, bitLen >>> 16 % 256,
     bitLen >>> 8 % 256, bitLen % 256]

def toBlocksFuel : Nat → List Nat → List (List Nat)
  | 0, _ => []
  | _, [] => []
  | fuel + 1, bs => bs.take 64 :: toBlocksFuel fuel (bs.drop 64)

/-- Split the padded message into 64-byte blocks.  Fuel `bs.length` is
enough: each step consumes 64 bytes, so the block count never exceeds the
byte count. -/
def toBlocks (bs : List Nat) : List (List Nat) := toBlocksFuel bs.length bs

def sha256Words (msg : List Nat) : Hash8 :=
  (toBlocks (padMessage msg)).foldl compressBlock sha256Init

def hexDigit (n : Nat) : Char :=
  if n < 10 then Char.ofNat (48 + n) else Char.ofNat (87 + n)

/-- Lowercase hexadecimal rendering of one 32-bit word, eight digits. -/
def wordHex (w : Nat) : List Char :=
  [hexDigit (w / 268435456 % 16), hexDigit (w / 16777216 % 16),
   hexDigit (w / 1048576 % 16), hexDigit (w / 65536 % 16),
   hexDigit (w / 4096 % 16), hexDigit (w / 256 % 16),
   hexDigit (w / 16 % 16), hexDigit (w % 16)]

def sha256HexChars (msg : List Nat) : List Char :=
  let h := sha256Words msg
  wordHex h.w0 ++ wordHex h.w1 ++ wordHex h.w2 ++ wordHex h.w3 ++
    wordHex h.w4 ++ wordHex h.w5 ++ wordHex h.w6 ++ wordHex h.w7

def sha256Hex (msg : List Nat) : String := String.mk (sha256HexChars msg)

/-- UTF-8 encoding of one character (what `Hash.update` applies to a JS
string by default). -/
def utf8Char (c : Char) : List Nat :=
  let n := c.toNat
  if n < 128 then [n]
  else if n < 2048 then [192 ||| (n >>> 6), 128 ||| (n &&& 63)]
  else if n < 65536 then
    [224 ||| (n >>> 12), 128 ||| ((n >>> 6) &&& 63), 128 ||| (n &&& 63)]
  else
    [240 ||| (n >>> 18), 128 ||| ((n >>> 12) &&& 63),
     128 ||| ((n >>> 6) &&& 63), 128 ||| (n &&& 63)]

def utf8Bytes (s : String) : List Nat := s.data.flatMap utf8Char

/-- The method `getKey(operation)`: `crypto.createHash('sha256').update(operation).digest('hex')`
(src/lib/index.ts lines 137-139). -/
def getKey (operation : String) : String := sha256Hex (utf8Bytes operation)

/-! ## JavaScript values

Stored action results are `JSON.parse`d and their fields read by property
access; oracle action responses are arbitrary JSON-shaped values.  `JsVal`
models that value domain.  Property access on `null`/`undefined` throws a
`TypeError`; on every other value a missing property reads as `undefined`.
-/

inductive JsVal where
  | undefined : JsVal
  | null : JsVal
  | bool : Bool → JsVal
  | num : Nat → JsVal
  | str : String → JsVal
  | arr : List JsVal → JsVal
  | obj : List (String × JsVal) → JsVal

/-- JS truthiness. -/
def truthy : JsVal → Bool
  | .undefined => false
  | .null => false
  | .bool b => b
  | .num n => n ≠ 0
  | .str s => s ≠ ""
  | .arr _ => true
  | .obj _ => true

/-- A thrown JS error, as observed by the caller of `observe`/`act`. -/
inductive JsErr where
  | typeError : JsErr
  | contractError : JsErr
  | notAttached : JsErr
  | playwrightError : JsErr
deriving DecidableEq

/-- Property access `v[k]`: throws `TypeError` on `null`/`undefined`;
arrays and strings expose `length`; a missing key reads as `undefined`.
(Numeric index access on arrays is not exercised by the engine and is not
modelled.) -/
def jsGet : JsVal → String → Except JsErr JsVal
  | .undefined, _ => .error .typeError
  | .null, _ => .error .typeError
  | .bool _, _ => .ok .undefined
  | .num _, _ => .ok .undefined
  | .str s, k => .ok (if k = "length" then .num s.length else .undefined)
  | .arr xs, k => .ok (if k = "length" then .num xs.length else .undefined)
  | .obj fields, k => .ok ((fields.lookup k).getD .undefined)

/-- String coercion of a value used as a property key (`selectorMap[element]`).
The engine only ever produces numbers, strings, or `undefined` here; the
composite cases are approximated by a fixed tag (no snapshot's selector map
carries such keys, so every composite key misses either way). -/
def jsKeyString : JsVal → String
  | .undefined => "undefined"
  | .null => "null"
  | .bool b => cond b "true" "false"
  | .num n => toString n
  | .str s => s
  | .arr _ => "[array]"
  | .obj _ => "[object Object]"

/-! ## Cache and engine state -/

/-- One persisted observation record: `{ result: string, id: string }` where
`result` is the resolved locator string. -/
structure ObsEntry where
  result : String
  id : String
deriving DecidableEq

/-- One persisted action record.  In the source the `result` field is a JSON
string that the `act` hit path immediately `JSON.parse`s; it is modelled
here already parsed, as the `JsVal` the hit path computes from it. -/
structure ActEntry where
  result : JsVal
  id : String

/-- The two durable tables owned by the persistent cache. -/
structure CacheStore where
  observations : List (String × ObsEntry)
  actions : List (String × ActEntry)

/-- Modelled from the spec: `lib/cache.ts` is not part of src/ (only its
call sites in `src/lib/index.ts` are).  Per spec section 4.2, `load` returns
the full table, or the empty mapping when caching is administratively
disabled, and `write` upserts durably, or is a no-op when disabled. -/
structure Cache where
  disabled : Bool
  store : CacheStore

def Cache.readObservations (c : Cache) : List (String × ObsEntry) :=
  if c.disabled then [] else c.store.observations

def Cache.readActions (c : Cache) : List (String × ActEntry) :=
  if c.disabled then [] else c.store.actions

def Cache.writeObservations (c : Cache) (key : String) (value : ObsEntry) :
    Cache :=
  if c.disabled then c
  else { c with store.observations := (key, value) :: c.store.observations }

def Cache.writeActions (c : Cache) (key : String) (value : ActEntry) :
    Cache :=
  if c.disabled then c
  else { c with store.actions := (key, value) :: c.store.actions }

/-- The mutable fields of a `Stagehand` instance that the resolution engine
touches: the two in-memory mirrors, the persistent cache handle, and the
session identifier. -/
structure StagehandState where
  observations : List (String × ObsEntry)
  actions : List (String × ActEntry)
  cache : Cache
  id : String

/-- The constructor (src/lib/index.ts lines 69-93): build the cache with the
`disableCache` flag and load both mirrors from it. -/
def mkStagehand (store : CacheStore) (disableCache : Bool) : StagehandState :=
  let cache : Cache := { disabled := disableCache, store := store }
  { observations := cache.readObservations
    actions := cache.readActions
    cache := cache
    id := "" }

/-- The method `setId` (src/lib/index.ts lines 276-278). -/
def setId (st : StagehandState) (key : String) : StagehandState :=
  { st with id := key }

/-- One call's view of the external collaborators: the DOM snapshot provider
(`window.processElements`), the live document (locator attachment, method
dispatch, interaction outcome), and the reasoning oracle (the chat
completion for `observe`, the `act` inference call for `act`). -/
structure Env where
  /-- The `outputString` returned by `processElements` for this call. -/
  outputString : String
  /-- The `selectorMap` returned by `processElements`: numeric element id
  (as its JS property-key string) to structural xpath. -/
  selectorMap : List (String × String)
  /-- Whether `page.locator(s).first()` currently resolves to an attached
  element of the live document. -/
  attached : String → Bool
  /-- Whether a `Locator` object exposes method `m` (`click`, `fill`, ...). -/
  validMethod : String → Bool
  /-- Whether invoking `m` with `args` on the first match of locator `l`
  succeeds against the live page (a playwright failure otherwise). -/
  execOk : String → String → List JsVal → Bool
  /-- What `selectorResponse.choices[0].message.content` is for
  this `observe` call (`none` models a `null`/missing content). -/
  observeContent : Option String
  /-- The value the `act` inference call resolves with for this call. -/
  actResponse : JsVal

/-! ## The `observe` resolution path (src/lib/index.ts lines 191-275) -/

/-- What an `observe` call delivers to its caller: the returned key, the
`null` return, or a thrown error. -/
inductive ObsOutcome where
  | found : String → ObsOutcome
  | nullResult : ObsOutcome
  | thrown : JsErr → ObsOutcome
deriving DecidableEq

structure ObsResult where
  outcome : ObsOutcome
  state : StagehandState
  oracleCalled : Bool

/-- The method `cacheObservation` (lines 280-287): update the in-memory mirror, then
write the persistent table, and return the key.  Note the mirror assignment
is unconditional; only the persistent write honours the disabled flag. -/
def cacheObservation (st : StagehandState) (observation result : String) :
    String × StagehandState :=
  let key := getKey observation
  (key,
   { st with
       observations := (key, ⟨result, st.id⟩) :: st.observations
       cache := st.cache.writeObservations key ⟨result, st.id⟩ })

/-- The method `cacheAction` (lines 289-296).  Its only call site (line 365) is
commented out -- `act` never invokes it. -/
def cacheAction (st : StagehandState) (action : String) (result : JsVal) :
    String × StagehandState :=
  let key := getKey action
  (key,
   { st with
       actions := (key, ⟨result, st.id⟩) :: st.actions
       cache := st.cache.writeActions key ⟨result, st.id⟩ })

/-- The cache-miss tail of `observe` (lines 210-274): snapshot, oracle
query, `!elementId` contract check, `NONE` sentinel check, locator built
from the selector map, attachment assertion, then `cacheObservation`. -/
def observeMiss (env : Env) (st : StagehandState) (observation : String) :
    ObsResult :=
  match env.observeContent with
  | none => ⟨.thrown .contractError, st, true⟩
  | some elementId =>
    if elementId = "" then ⟨.thrown .contractError, st, true⟩
    else if elementId = "NONE" then ⟨.nullResult, st, true⟩
    else
      let locatorString :=
        "xpath=" ++ (env.selectorMap.lookup elementId).getD "undefined"
      if env.attached locatorString then
        let r := cacheObservation st observation locatorString
        ⟨.found r.1, r.2, true⟩
      else ⟨.thrown .notAttached, st, true⟩

/-- The method `observe(observation)` (lines 191-275).  The hit condition is the JS
truthiness of `this.observations[key]?.result`: an entry must exist and its
`result` must be a non-empty string; the hit path then asserts the cached
locator is attached and returns the key without consulting the oracle. -/
def observe (env : Env) (st : StagehandState) (observation : String) :
    ObsResult :=
  let key := getKey observation
  match st.observations.lookup key with
  | some entry =>
    if entry.result = "" then observeMiss env st observation
    else if env.attached entry.result then ⟨.found key, st, false⟩
    else ⟨.thrown .notAttached, st, false⟩
  | none => observeMiss env st observation

/-! ## The `act` resolution path (src/lib/index.ts lines 298-368) -/

/-- One interaction performed against the live document:
`locator[method](...args)` on `page.locator(locatorStr).first()`. -/
structure Interaction where
  locator : String
  method : String
  args : List JsVal

/-- The ordered externally visible events of one `act` call. -/
inductive Event where
  | settle : Event
  | oracle : Event
  | interact : Interaction → Event

structure ActResult where
  outcome : Except JsErr Unit
  state : StagehandState
  oracleCalled : Bool
  interactions : List Interaction
  events : List Event

/-- The argument spread `...args`: arrays spread to their elements, strings
to their characters, anything else throws a `TypeError`. -/
def spreadArgs : JsVal → Except JsErr (List JsVal)
  | .arr xs => .ok xs
  | .str s => .ok (s.data.map fun c => JsVal.str (String.mk [c]))
  | _ => .error .typeError

/-- The loop `for (const command of commands)` needs an iterable. -/
def iterable : JsVal → Option (List JsVal)
  | .arr xs => some xs
  | .str s => some (s.data.map fun c => JsVal.str (String.mk [c]))
  | _ => none

/-- One command of the `act` cache-hit replay loop (lines 315-326): read
`locator`, `method`, `args`; `page.locator` requires a string selector;
`locator[method]` is callable only when `method` is a string naming a
`Locator` method (the property set of a `Locator` contains no
coercion-artifact names such as "undefined", so a non-string method value
always dispatches to `undefined` and throws). -/
def execHitCommand (env : Env) (command : JsVal) :
    Except JsErr Interaction :=
  match jsGet command "locator" with
  | .error e => .error e
  | .ok locatorVal =>
    match jsGet command "method" with
    | .error e => .error e
    | .ok methodVal =>
      match jsGet command "args" with
      | .error e => .error e
      | .ok argsVal =>
        match locatorVal with
        | .str locatorStr =>
          match methodVal with
          | .str m =>
            if env.validMethod m then
              match spreadArgs argsVal with
              | .error e => .error e
              | .ok args =>
                if env.execOk locatorStr m args then .ok ⟨locatorStr, m, args⟩
                else .error .playwrightError
            else .error .typeError
          | _ => .error .typeError
        | _ => .error .typeError

/-- One command of the `act` cache-miss execution loop (lines 350-362):
read `element`, resolve `selectorMap[element]` (property access never
throws; a missing id reads as `undefined`), read `method` and `args`, build
the locator by template interpolation -- an absent path renders as the
literal text "undefined" -- and dispatch as on the hit path. -/
def execMissCommand (env : Env) (command : JsVal) :
    Except JsErr Interaction :=
  match jsGet command "element" with
  | .error e => .error e
  | .ok elementVal =>
    let path := env.selectorMap.lookup (jsKeyString elementVal)
    match jsGet command "method" with
    | .error e => .error e
    | .ok methodVal =>
      match jsGet command "args" with
      | .error e => .error e
      | .ok argsVal =>
        let locatorStr := "xpath=" ++ path.getD "undefined"
        match methodVal with
        | .str m =>
          if env.validMethod m then
            match spreadArgs argsVal with
            | .error e => .error e
            | .ok args =>
              if env.execOk locatorStr m args then .ok ⟨locatorStr, m, args⟩
              else .error .playwrightError
          else .error .typeError
        | _ => .error .typeError

/-- Run the command loop: interactions performed so far, and the error that
aborted the loop, if any. -/
def runCommands (exec : JsVal → Except JsErr Interaction) :
    List JsVal → List Interaction × Option JsErr
  | [] => ([], none)
  | c :: cs =>
    match exec c with
    | .error e => ([], some e)
    | .ok i =>
      let r := runCommands exec cs
      (i :: r.1, r.2)

/-- The method `act` (lines 298-368).  Both paths start with
`waitForSettledDom` (whose own failure is caught and logged, never
fatal).  The hit path parses the stored result, normalizes it by
`res.length ? res : [res]`, replays each command, and returns with **no**
trailing settle wait.  The miss path snapshots, queries the oracle
(`inference.act`), normalizes identically, executes each command, skips the
commented-out `cacheAction` call, and ends with a trailing settle wait. -/
def act (env : Env) (st : StagehandState) (action : String) : ActResult :=
  let key := getKey action
  match st.actions.lookup key with
  | some cachedAction =>
    let res := cachedAction.result
    match jsGet res "length" with
    | .error e => ⟨.error e, st, false, [], [.settle]⟩
    | .ok lenV =>
      let commands := if truthy lenV then res else .arr [res]
      match iterable commands with
      | none => ⟨.error .typeError, st, false, [], [.settle]⟩
      | some cs =>
        let r := runCommands (execHitCommand env) cs
        match r.2 with
        | some e => ⟨.error e, st, false, r.1, .settle :: r.1.map .interact⟩
        | none => ⟨.ok (), st, false, r.1, .settle :: r.1.map .interact⟩
  | none =>
    let response := env.actResponse
    match jsGet response "length" with
    | .error e => ⟨.error e, st, true, [], [.settle, .oracle]⟩
    | .ok lenV =>
      let commands := if truthy lenV then response else .arr [response]
      match iterable commands with
      | none => ⟨.error .typeError, st, true, [], [.settle, .oracle]⟩
      | some cs =>
        let r := runCommands (execMissCommand env) cs
        match r.2 with
        | some e =>
          ⟨.error e, st, true, r.1, .settle :: .oracle :: r.1.map .interact⟩
        | none =>
          ⟨.ok (), st, true, r.1,
           .settle :: .oracle :: r.1.map .interact ++ [.settle]⟩


/-! ## Derived definitions and concrete fixtures -/

/-- True for the sixteen lowercase hexadecimal digit characters. -/
def isHexChar (c : Char) : Bool :=
  (48 ≤ c.toNat && c.toNat ≤ 57) || (97 ≤ c.toNat && c.toNat ≤ 102)

/-- The JS-truthiness hit condition of `observe`:
`this.observations[key]?.result` is truthy. -/
def obsHit (st : StagehandState) (s : String) : Bool :=
  match st.observations.lookup (getKey s) with
  | some e => e.result ≠ ""
  | none => false

/-- The locator string a later `observe` hit would re-check. -/
def cachedLocator (st : StagehandState) (s : String) : Option String :=
  (st.observations.lookup (getKey s)).map (fun e => e.result)

def ObsOutcome.isFound : ObsOutcome → Bool
  | .found _ => true
  | _ => false

/-- A Command object exactly as the `act` hit path reads it. -/
def cmdObj (l m : String) (args : List JsVal) : JsVal :=
  .obj [("locator", .str l), ("method", .str m), ("args", .arr args)]

/-- A fresh instance over an empty store, caching enabled. -/
def stEmpty : StagehandState := mkStagehand ⟨[], []⟩ false

/-- A benign environment: one selector-mapped element, everything attached,
`click` and `fill` available, execution succeeding, and an oracle that
resolves element id 7 for observation and a one-command click for action. -/
def envYes : Env :=
  { outputString := "1: button"
    selectorMap := [("7", "//btn")]
    attached := fun _ => true
    validMethod := fun m => m == "click" || m == "fill"
    execOk := fun _ _ _ => true
    observeContent := some "7"
    actResponse := JsVal.obj
      [("element", .num 7), ("method", .str "click"), ("args", .arr [])] }

def envNone : Env := { envYes with observeContent := some "NONE" }

def envNoAttach : Env := { envYes with attached := fun _ => false }

def envEmptyStr : Env := { envYes with observeContent := some "" }

def envEmptyList : Env := { envYes with actResponse := JsVal.arr [] }

/-- An instance whose action table stores one command object directly. -/
def stSingle : StagehandState :=
  mkStagehand ⟨[], [(getKey "type hi",
    ⟨cmdObj "xpath=//inp" "fill" [JsVal.str "hi"], "s1"⟩)]⟩ false

/-- An instance whose action table stores the same command as a
one-element list. -/
def stList : StagehandState :=
  mkStagehand ⟨[], [(getKey "type hi",
    ⟨JsVal.arr [cmdObj "xpath=//inp" "fill" [JsVal.str "hi"]], "s2"⟩)]⟩ false

/-- An instance holding a cached click action for one instruction. -/
def stHit : StagehandState :=
  mkStagehand ⟨[], [(getKey "press it", ⟨cmdObj "xpath=//b" "click" [],
    "sess"⟩)]⟩ false

/-- A fresh instance constructed with `disableCache = true`. -/
def stDisabled : StagehandState := mkStagehand ⟨[], []⟩ true

set_option maxRecDepth 40000

/-! ## Helper lemmas -/

lemma hexDigit_isHex : ∀ n, n < 16 → isHexChar (hexDigit n) = true := by decide

lemma wordHex_isHex (w : Nat) : ∀ c ∈ wordHex w, isHexChar c = true := by
  intro c hc
  simp only [wordHex, List.mem_cons, List.not_mem_nil, or_false] at hc
  rcases hc with h | h | h | h | h | h | h | h <;>
    (subst h; exact hexDigit_isHex _ (Nat.mod_lt _ (by norm_num)))

lemma sha256HexChars_length (msg : List Nat) :
    (sha256HexChars msg).length = 64 := by
  simp [sha256HexChars, wordHex]

lemma sha256HexChars_isHex (msg : List Nat) :
    ∀ c ∈ sha256HexChars msg, isHexChar c = true := by
  intro c hc
  simp only [sha256HexChars, List.mem_append] at hc
  rcases hc with ((((((h | h) | h) | h) | h) | h) | h) | h <;>
    exact wordHex_isHex _ c h

lemma xpath_append_ne_empty (p : String) : ("xpath=" ++ p) ≠ "" := by
  intro h
  have h2 := congrArg String.length h
  simp [String.length_append] at h2
  exact absurd h2.1 (by decide)

lemma act_state_eq (env : Env) (st : StagehandState) (a : String) :
    (act env st a).state = st := by
  simp only [act]
  repeat' split <;> try rfl

lemma act_miss_oracleCalled (env : Env) (st : StagehandState) (a : String)
    (h : st.actions.lookup (getKey a) = none) :
    (act env st a).oracleCalled = true := by
  simp only [act, h]
  repeat' split
  all_goals rfl

lemma act_events_head (env : Env) (st : StagehandState) (a : String) :
    ∃ rest, (act env st a).events = Event.settle :: rest := by
  simp only [act]
  repeat' split
  all_goals exact ⟨_, rfl⟩

lemma observe_miss_eq (env : Env) (st : StagehandState) (s : String)
    (hmiss : obsHit st s = false) :
    observe env st s = observeMiss env st s := by
  unfold obsHit at hmiss
  simp only [observe]
  split at hmiss
  · simp at hmiss
    simp [hmiss]
  · rfl

/-- Exhaustive outcome and state account of the `observe` cache-miss tail:
the oracle is always consulted, and either the call does not resolve (state
untouched) or it resolves and the state is exactly a `cacheObservation`
write of an `xpath=`-prefixed locator. -/
lemma observeMiss_spec (env : Env) (st : StagehandState) (s : String) :
    (observeMiss env st s).oracleCalled = true ∧
    (((observeMiss env st s).outcome.isFound = false ∧
        (observeMiss env st s).state = st) ∨
      ∃ p, (observeMiss env st s).outcome = .found (getKey s) ∧
        (observeMiss env st s).state =
          (cacheObservation st s ("xpath=" ++ p)).2) := by
  simp only [observeMiss]
  split
  · exact ⟨rfl, .inl ⟨rfl, rfl⟩⟩
  · split
    · exact ⟨rfl, .inl ⟨rfl, rfl⟩⟩
    · split
      · exact ⟨rfl, .inl ⟨rfl, rfl⟩⟩
      · split
        · exact ⟨rfl, .inr ⟨_, rfl, rfl⟩⟩
        · exact ⟨rfl, .inl ⟨rfl, rfl⟩⟩

lemma observeMiss_found_spec (env : Env) (st : StagehandState) (s k : String)
    (h : (observeMiss env st s).outcome = .found k) :
    k = getKey s ∧
    ∃ e, ((observeMiss env st s).state).observations.lookup (getKey s) =
        some e ∧ e.result ≠ "" := by
  simp only [observeMiss] at h ⊢
  split at h
  · cases h
  · split at h
    · cases h
    · split at h
      · cases h
      · split at h <;>
          simp_all [cacheObservation, List.lookup, xpath_append_ne_empty]

lemma observe_found_spec (env : Env) (st : StagehandState) (s k : String)
    (h : (observe env st s).outcome = .found k) :
    k = getKey s ∧
    ∃ e, ((observe env st s).state).observations.lookup (getKey s) =
        some e ∧ e.result ≠ "" := by
  simp only [observe] at h ⊢
  split
  · rename_i entry heq
    simp only [heq] at h
    by_cases hr : entry.result = ""
    · simp only [if_pos hr] at h ⊢
      exact observeMiss_found_spec env st s k h
    · simp only [if_neg hr] at h ⊢
      by_cases ha : env.attached entry.result = true
      · simp only [if_pos ha] at h ⊢
        injection h with h2
        exact ⟨h2.symm, ⟨entry, heq, hr⟩⟩
      · simp only [if_neg ha] at h
        cases h
  · rename_i heq
    simp only [heq] at h
    exact observeMiss_found_spec env st s k h

/-- An `observe` whose mirror holds a truthy entry never reaches the
oracle, whatever the attachment check does. -/
lemma observe_hit_no_oracle (env : Env) (st : StagehandState) (s : String)
    (e : ObsEntry) (he : st.observations.lookup (getKey s) = some e)
    (hr : e.result ≠ "") :
    (observe env st s).oracleCalled = false := by
  simp only [observe, he]
  simp only [if_neg hr]
  split <;> rfl

/-- A second `observe` issued right after a `cacheObservation` write for
the same instruction takes the hit path: no oracle call. -/
lemma observe_after_cacheObservation (env : Env) (st : StagehandState)
    (s p : String) :
    (observe env ((cacheObservation st s ("xpath=" ++ p)).2) s).oracleCalled =
      false := by
  apply observe_hit_no_oracle env _ s ⟨"xpath=" ++ p, st.id⟩
  · simp [cacheObservation, List.lookup]
  · exact xpath_append_ne_empty p

/-! ## Claims -/

/-- C9: `getKey` is a total deterministic function of the instruction text:
repeated applications agree, equal text yields the equal key, the key is a
fixed-length (64 character) lowercase hexadecimal digest, it is computed by
SHA-256 from the UTF-8 bytes of the text alone, and no instance state (in
particular the session identifier) influences the key a cache write uses. -/
theorem claim_C9_getKey_deterministic_hash :
    (∀ s : String, getKey s = getKey s) ∧
    (∀ s t : String, s = t → getKey s = getKey t) ∧
    (∀ s : String, (getKey s).length = 64) ∧
    (∀ s : String, ∀ c ∈ (getKey s).data, isHexChar c = true) ∧
    (∀ s : String, getKey s = sha256Hex (utf8Bytes s)) ∧
    (∀ st1 st2 : StagehandState, ∀ s r : String,
      (cacheObservation st1 s r).1 = (cacheObservation st2 s r).1) := by
  refine ⟨fun _ => rfl, fun s t h => by rw [h], fun s => ?_, fun s => ?_,
    fun _ => rfl, fun _ _ _ _ => rfl⟩
  · exact sha256HexChars_length (utf8Bytes s)
  · intro c hc
    exact sha256HexChars_isHex (utf8Bytes s) c hc

/-- Witness for C9: the determinism conjunct applied to one concrete
instruction. -/
theorem claim_C9_witness :
    ("press login" : String) = "press login" ∧
    getKey "press login" = getKey "press login" :=
  ⟨rfl, claim_C9_getKey_deterministic_hash.2.1 "press login" "press login" rfl⟩

/-- C10: every non-null `observe` return value is exactly `getKey` applied
to the instruction text, on the hit path and after a fresh resolution
alike; hence identical instructions can only return identical keys. -/
theorem claim_C10_observe_returns_getKey (env : Env) (st : StagehandState)
    (s k : String) (h : (observe env st s).outcome = .found k) :
    k = getKey s :=
  (observe_found_spec env st s k h).1

/-- Witness for C10: a concrete fresh resolution returns the derived key. -/
theorem claim_C10_witness :
    (observe envYes stEmpty "find the buy button").outcome =
      ObsOutcome.found (getKey "find the buy button") ∧
    getKey "find the buy button" = getKey "find the buy button" :=
  ⟨rfl, claim_C10_observe_returns_getKey envYes stEmpty "find the buy button"
    (getKey "find the buy button") rfl⟩

/-- C3: an `act` cache miss persists nothing -- the whole engine state
(actions mirror and persistent cache included) is unchanged when `act`
returns, the oracle was invoked, and an identical repeat call invokes the
oracle again. -/
theorem claim_C3_act_miss_not_persisted (env1 env2 : Env)
    (st : StagehandState) (a : String)
    (h : st.actions.lookup (getKey a) = none) :
    (act env1 st a).state = st ∧
    (act env1 st a).oracleCalled = true ∧
    (act env2 (act env1 st a).state a).oracleCalled = true := by
  refine ⟨act_state_eq env1 st a, act_miss_oracleCalled env1 st a h, ?_⟩
  rw [act_state_eq env1 st a]
  exact act_miss_oracleCalled env2 st a h

/-- Witness for C3 on a concrete missing action. -/
theorem claim_C3_witness :
    List.lookup (getKey "press submit") stEmpty.actions = none ∧
    ((act envYes stEmpty "press submit").state = stEmpty ∧
     (act envYes stEmpty "press submit").oracleCalled = true ∧
     (act envYes (act envYes stEmpty "press submit").state
        "press submit").oracleCalled = true) :=
  ⟨rfl,
   claim_C3_act_miss_not_persisted envYes envYes stEmpty "press submit" rfl⟩

/-- C5: when the oracle answers the `NONE` sentinel on an `observe` miss,
the call returns null, leaves the whole state (ObservationCache included)
unchanged, and raises no error. -/
theorem claim_C5_not_found_returns_null (env : Env) (st : StagehandState)
    (s : String) (hmiss : obsHit st s = false)
    (hsentinel : env.observeContent = some "NONE") :
    (observe env st s).outcome = ObsOutcome.nullResult ∧
    (observe env st s).state = st ∧
    (observe env st s).oracleCalled = true := by
  rw [observe_miss_eq env st s hmiss]
  simp [observeMiss, hsentinel]

/-- Witness for C5 with a concrete sentinel answer. -/
theorem claim_C5_witness :
    obsHit stEmpty "find the price label" = false ∧
    envNone.observeContent = some "NONE" ∧
    ((observe envNone stEmpty "find the price label").outcome =
        ObsOutcome.nullResult ∧
     (observe envNone stEmpty "find the price label").state = stEmpty ∧
     (observe envNone stEmpty "find the price label").oracleCalled = true) :=
  ⟨rfl, rfl, claim_C5_not_found_returns_null envNone stEmpty
    "find the price label" rfl rfl⟩

/-- C4: if the target locator of an `observe` call -- the cached one on a
hit, or the one freshly built from the selector map on a miss -- matches no
attached element, the call throws and the state (persistent table and
in-memory mirror) is exactly as before. -/
theorem claim_C4_unattached_is_hard_error (env : Env) (st : StagehandState)
    (s : String) :
    (∀ e, st.observations.lookup (getKey s) = some e → e.result ≠ "" →
      env.attached e.result = false →
      (observe env st s).outcome = ObsOutcome.thrown JsErr.notAttached ∧
      (observe env st s).state = st) ∧
    (∀ eid, obsHit st s = false → env.observeContent = some eid →
      eid ≠ "" → eid ≠ "NONE" →
      env.attached
        ("xpath=" ++ ((env.selectorMap.lookup eid).getD "undefined")) =
        false →
      (observe env st s).outcome = ObsOutcome.thrown JsErr.notAttached ∧
      (observe env st s).state = st) := by
  constructor
  · intro e he hr ha
    simp only [observe, he]
    simp [hr, ha]
  · intro eid hm hoc h1 h2 ha
    rw [observe_miss_eq env st s hm]
    simp only [observeMiss, hoc]
    simp [h1, h2, ha]

/-- Witness for C4: a concrete miss whose freshly built locator is
unattached. -/
theorem claim_C4_witness :
    obsHit stEmpty "click on login" = false ∧
    envNoAttach.observeContent = some "7" ∧
    ((observe envNoAttach stEmpty "click on login").outcome =
        ObsOutcome.thrown JsErr.notAttached ∧
     (observe envNoAttach stEmpty "click on login").state = stEmpty) :=
  ⟨rfl, rfl,
   (claim_C4_unattached_is_hard_error envNoAttach stEmpty "click on login").2
     "7" rfl rfl (by decide) (by decide) rfl⟩

/-- C6: after an `observe` call that resolved successfully, a second
`observe` with the identical instruction does not invoke the oracle and
returns the same key, provided the cached locator still resolves to an
attached element. -/
theorem claim_C6_second_observe_skips_oracle (env1 env2 : Env)
    (st : StagehandState) (s k : String)
    (h : (observe env1 st s).outcome = .found k)
    (hatt : ∀ r, cachedLocator (observe env1 st s).state s = some r →
      env2.attached r = true) :
    (observe env2 (observe env1 st s).state s).oracleCalled = false ∧
    (observe env2 (observe env1 st s).state s).outcome =
      ObsOutcome.found (getKey s) := by
  obtain ⟨-, e, he, hr⟩ := observe_found_spec env1 st s k h
  have ha : env2.attached e.result = true := by
    apply hatt
    simp [cachedLocator, he]
  constructor
  · exact observe_hit_no_oracle env2 _ s e he hr
  · generalize hgen : (observe env1 st s).state = st1 at he ⊢
    simp only [observe, he]
    simp [hr, ha]

/-- Witness for C6: a concrete successful resolution followed by an
identical call. -/
theorem claim_C6_witness :
    (observe envYes stEmpty "find the cart").outcome =
      ObsOutcome.found (getKey "find the cart") ∧
    ((observe envYes (observe envYes stEmpty "find the cart").state
        "find the cart").oracleCalled = false ∧
     (observe envYes (observe envYes stEmpty "find the cart").state
        "find the cart").outcome = ObsOutcome.found (getKey "find the cart")) :=
  ⟨rfl, claim_C6_second_observe_skips_oracle envYes envYes stEmpty
    "find the cart" (getKey "find the cart") rfl (fun _ _ => rfl)⟩

/-! ## Claims C7, C8, C1, C2 -/

/-- C7: on the `act` hit path, a stored result that parses as a single
Command and one that parses as a one-element list of that same Command
execute identically: exactly one interaction is performed, with the same
locator, method, and arguments. -/
theorem claim_C7_normalization (env : Env) (st1 st2 : StagehandState)
    (a l m : String) (args : List JsVal) (sid1 sid2 : String)
    (h1 : st1.actions.lookup (getKey a) = some ⟨cmdObj l m args, sid1⟩)
    (h2 : st2.actions.lookup (getKey a) =
      some ⟨JsVal.arr [cmdObj l m args], sid2⟩)
    (hm : env.validMethod m = true) (hx : env.execOk l m args = true) :
    (act env st1 a).interactions = [⟨l, m, args⟩] ∧
    (act env st2 a).interactions = [⟨l, m, args⟩] ∧
    (act env st1 a).outcome = Except.ok () ∧
    (act env st2 a).outcome = Except.ok () := by
  have hexec : execHitCommand env (JsVal.obj [("locator", JsVal.str l),
      ("method", JsVal.str m), ("args", JsVal.arr args)]) =
      .ok ⟨l, m, args⟩ := by
    simp [execHitCommand, jsGet, List.lookup, hm, spreadArgs, hx]
  refine ⟨?_, ?_, ?_, ?_⟩ <;>
    simp [act, h1, h2, jsGet, cmdObj, truthy, iterable, runCommands, hexec,
      List.lookup]

/-- Witness for C7 on a concrete fill command stored both ways. -/
theorem claim_C7_witness :
    List.lookup (getKey "type hi") stSingle.actions =
      some ⟨cmdObj "xpath=//inp" "fill" [JsVal.str "hi"], "s1"⟩ ∧
    List.lookup (getKey "type hi") stList.actions =
      some ⟨JsVal.arr [cmdObj "xpath=//inp" "fill" [JsVal.str "hi"]], "s2"⟩ ∧
    envYes.validMethod "fill" = true ∧
    envYes.execOk "xpath=//inp" "fill" [JsVal.str "hi"] = true ∧
    ((act envYes stSingle "type hi").interactions =
        [⟨"xpath=//inp", "fill", [JsVal.str "hi"]⟩] ∧
     (act envYes stList "type hi").interactions =
        [⟨"xpath=//inp", "fill", [JsVal.str "hi"]⟩] ∧
     (act envYes stSingle "type hi").outcome = Except.ok () ∧
     (act envYes stList "type hi").outcome = Except.ok ()) :=
  ⟨rfl, rfl, rfl, rfl,
   claim_C7_normalization envYes stSingle stList "type hi" "xpath=//inp"
     "fill" [JsVal.str "hi"] "s1" "s2" rfl rfl rfl rfl⟩

/-- C8: an empty or missing oracle response where a value was required is a
hard synchronous error with no retry and no cache write.  On `observe`,
null or empty `content` fails the explicit non-empty check (`!elementId`)
before anything else happens; on an `act` miss, an empty command list (or
a missing response) throws before any interaction is performed.  The state
is unchanged and the oracle was consulted exactly once in every case. -/
theorem claim_C8_empty_response_hard_error (env : Env) (st : StagehandState)
    (s a : String) :
    ((env.observeContent = none ∨ env.observeContent = some "") →
      obsHit st s = false →
      (observe env st s).outcome = ObsOutcome.thrown JsErr.contractError ∧
      (observe env st s).state = st ∧
      (observe env st s).oracleCalled = true) ∧
    ((env.actResponse = JsVal.arr [] ∨ env.actResponse = JsVal.undefined) →
      st.actions.lookup (getKey a) = none →
      (act env st a).outcome = Except.error JsErr.typeError ∧
      (act env st a).interactions = [] ∧
      (act env st a).state = st ∧
      (act env st a).oracleCalled = true) := by
  constructor
  · rintro (hoc | hoc) hm <;>
      (rw [observe_miss_eq env st s hm]; simp [observeMiss, hoc])
  · rintro (hr | hr) hm <;>
      simp [act, hm, hr, jsGet, truthy, iterable, runCommands,
        execMissCommand, jsKeyString]

/-- Witness for C8: a concrete empty observe content and a concrete empty
action command list. -/
theorem claim_C8_witness :
    ((observe envEmptyStr stEmpty "find the tab").outcome =
        ObsOutcome.thrown JsErr.contractError ∧
     (observe envEmptyStr stEmpty "find the tab").state = stEmpty ∧
     (observe envEmptyStr stEmpty "find the tab").oracleCalled = true) ∧
    ((act envEmptyList stEmpty "open the tab").outcome =
        Except.error JsErr.typeError ∧
     (act envEmptyList stEmpty "open the tab").interactions = [] ∧
     (act envEmptyList stEmpty "open the tab").state = stEmpty ∧
     (act envEmptyList stEmpty "open the tab").oracleCalled = true) :=
  ⟨(claim_C8_empty_response_hard_error envEmptyStr stEmpty "find the tab"
      "find the tab").1 (Or.inr rfl) rfl,
   (claim_C8_empty_response_hard_error envEmptyList stEmpty "find the tab"
      "open the tab").2 (Or.inl rfl) rfl⟩

/-- C1 counterexample: a concrete successful cache-hit `act` call whose
whole event trace is the initial settle wait followed by its one
interaction -- the call returns directly after executing its command, with
no quiescence wait between execution and return. -/
theorem claim_C1_counterexample :
    (act envYes stHit "press it").outcome = Except.ok () ∧
    (act envYes stHit "press it").events =
      [Event.settle, Event.interact ⟨"xpath=//b", "click", []⟩] ∧
    (act envYes stHit "press it").events.getLast? ≠ some Event.settle := by
  refine ⟨rfl, rfl, ?_⟩
  intro hcontra
  rw [show (act envYes stHit "press it").events =
      [Event.settle, Event.interact ⟨"xpath=//b", "click", []⟩] from rfl]
    at hcontra
  simp [List.getLast?] at hcontra

/-- C1 amended: every `act` call waits for quiescence before executing any
command (its first event is a settle wait); on the cache-miss path a
normal return is additionally preceded by a trailing settle wait; the
cache-hit path instead returns directly after its last command, relying on
the next call's leading wait. -/
theorem claim_C1_amended_settle_discipline (env : Env)
    (st : StagehandState) (a : String) :
    (∃ rest, (act env st a).events = Event.settle :: rest) ∧
    (st.actions.lookup (getKey a) = none →
      (act env st a).outcome = Except.ok () →
      (act env st a).events.getLast? = some Event.settle) := by
  refine ⟨act_events_head env st a, ?_⟩
  intro hm hok
  simp only [act, hm] at hok ⊢
  split at hok
  · simp at hok
  · split at hok
    · simp at hok
    · split at hok
      · simp at hok
      · simp only [← List.cons_append, List.getLast?_append_cons]
        rfl

/-- Witness for C1 amended: a concrete cache-miss call that returns
normally and whose trace ends with the trailing settle wait. -/
theorem claim_C1_witness :
    List.lookup (getKey "buy now") stEmpty.actions = none ∧
    (act envYes stEmpty "buy now").outcome = Except.ok () ∧
    (act envYes stEmpty "buy now").events.getLast? = some Event.settle :=
  ⟨rfl, rfl,
   (claim_C1_amended_settle_discipline envYes stEmpty "buy now").2 rfl rfl⟩

/-- C2 counterexample: with caching disabled at construction, a first
`observe` resolves via the oracle, but -- because `cacheObservation`
updates the in-memory mirror unconditionally while only the persistent
write honours the disabled flag -- the identical second `observe` is
served from the mirror and does not invoke the oracle, contradicting the
claim that every resolution falls through to the oracle. -/
theorem claim_C2_counterexample :
    stDisabled.cache.disabled = true ∧
    (observe envYes stDisabled "find the logo").oracleCalled = true ∧
    (observe envYes (observe envYes stDisabled "find the logo").state
        "find the logo").oracleCalled = false :=
  ⟨rfl, rfl, rfl⟩

/-- C2 amended: with caching disabled, two identical consecutive `act`
calls both invoke the oracle; for `observe`, the second identical call
invokes the oracle exactly when the first did not resolve successfully --
a successful first `observe` still populates the in-memory mirror (only
the persistent write is a no-op), so the second identical call is served
without an oracle call. -/
theorem claim_C2_amended_disabled_bypass (store : CacheStore)
    (env1 env2 env3 env4 : Env) (a s : String) :
    ((act env1 (mkStagehand store true) a).oracleCalled = true ∧
     (act env2 (act env1 (mkStagehand store true) a).state a).oracleCalled =
       true) ∧
    ((observe env3 (mkStagehand store true) s).oracleCalled = true ∧
     (observe env4 (observe env3 (mkStagehand store true) s).state
        s).oracleCalled =
       !(observe env3 (mkStagehand store true) s).outcome.isFound) := by
  have hacts : (mkStagehand store true).actions = [] := by
    simp [mkStagehand, Cache.readActions]
  have hobs : (mkStagehand store true).observations = [] := by
    simp [mkStagehand, Cache.readObservations]
  have hmiss : obsHit (mkStagehand store true) s = false := by
    simp [obsHit, hobs]
  have hlook : (mkStagehand store true).actions.lookup (getKey a) = none := by
    rw [hacts]; rfl
  refine ⟨⟨act_miss_oracleCalled env1 _ a hlook, ?_⟩, ?_⟩
  · rw [act_state_eq env1 _ a]
    exact act_miss_oracleCalled env2 _ a hlook
  · rw [observe_miss_eq env3 _ s hmiss]
    obtain ⟨h1, hcases⟩ := observeMiss_spec env3 (mkStagehand store true) s
    refine ⟨h1, ?_⟩
    rcases hcases with ⟨hnf, hst⟩ | ⟨p, hout, hst⟩
    · rw [hnf, hst, observe_miss_eq env4 _ s hmiss]
      simp [(observeMiss_spec env4 (mkStagehand store true) s).1]
    · rw [hout, hst]
      simp only [ObsOutcome.isFound, Bool.not_true]
      exact observe_after_cacheObservation env4 _ s p
